import Mathlib

/-
  Shallow embedding of the Run and Choose endless-runner game core
  (src/game.js).  Positions, speeds and timers are modelled as exact
  rationals; the hearts counter as an integer (the source decrements it
  with no lower clamp); spawn/defeat counters as naturals.  Randomness
  (monster type, spawn offset, choice-side shuffle) and the per-frame
  delta are supplied as explicit inputs to each step.
-/

set_option maxRecDepth 100000

namespace RunChoose

/-- The two power-ups.  The source represents them as the strings
representing a sword and a magic wand. -/
inductive Weapon
  | sword
  | magic
  deriving DecidableEq

/-- Monster kinds ('beast' or 'ghost' in the source). -/
inductive MType
  | beast
  | ghost
  deriving DecidableEq

/-- The finite game state, from the comment on Game.reset:
'intro','choice','playing','levelEnd','gameOver'. -/
inductive GState
  | intro
  | choice
  | playing
  | levelEnd
  | gameOver
  deriving DecidableEq

/-- A level record: { monsterCount, speed } (src/game.js lines 106-117). -/
structure Level where
  monsterCount : Nat
  speed : ℚ
  deriving DecidableEq

/-- The ten fixed levels (src/game.js LEVELS). -/
def LEVELS : List Level :=
  [⟨5, 2.0⟩, ⟨8, 2.2⟩, ⟨10, 2.5⟩, ⟨12, 2.8⟩, ⟨14, 3.1⟩,
   ⟨16, 3.4⟩, ⟨18, 3.7⟩, ⟨20, 4.0⟩, ⟨22, 4.3⟩, ⟨25, 4.6⟩]

/-- Lookup LEVELS[i].  The source indexes the array directly; every
reachable levelIndex is in range, so the default is never consulted
on reachable states. -/
def levelAt (i : Nat) : Level := LEVELS.getD i ⟨0, 0⟩

/-- Environment: the canvas dimensions read by the game code. -/
structure Env where
  canvasW : ℚ
  canvasH : ℚ
  deriving DecidableEq

/-- Hero entity (class Hero): position, size and equipped weapon. -/
structure Hero where
  x : ℚ
  y : ℚ
  width : ℚ
  height : ℚ
  weapon : Weapon
  deriving DecidableEq

/-- Hero.resetPosition (src/game.js lines 130-135). -/
def Hero.resetPosition (h : Hero) (E : Env) : Hero :=
  let w := E.canvasH * 0.15
  { h with width := w, height := w,
           x := E.canvasW * 0.1,
           y := E.canvasH - w - E.canvasH * 0.1 }

/-- Monster entity (class Monster).  The image handle is irrelevant to the
logic and omitted; `required` is the field set by the constructor. -/
structure Monster where
  mtype : MType
  x : ℚ
  y : ℚ
  width : ℚ
  height : ℚ
  required : Weapon
  deriving DecidableEq

/-- The weapon that defeats a monster kind, as computed both in the
Monster constructor (line 161) and in the collision check (line 276). -/
def requiredFor : MType → Weapon
  | MType.beast => Weapon.sword
  | MType.ghost => Weapon.magic

/-- Monster constructor (src/game.js lines 151-162).  `rand` stands for
the Math.random() draw in [0,1) used for the spawn offset. -/
def newMonster (E : Env) (t : MType) (rand : ℚ) : Monster :=
  let w := E.canvasH * 0.12
  { mtype := t,
    x := E.canvasW + rand * E.canvasW * 0.5,
    width := w, height := w,
    y := E.canvasH - w - E.canvasH * 0.1,
    required := requiredFor t }

/-- Monster.offscreen (line 171): the whole box is past the left edge. -/
def offscreenB (m : Monster) : Bool := decide (m.x + m.width < 0)

/-- Monster.update (line 165): x -= baseSpeed * dt. -/
def moveMonster (dt baseSpeed : ℚ) (m : Monster) : Monster :=
  { m with x := m.x - baseSpeed * dt }

/-- The rectangle-overlap test of the collision loop (lines 271-274),
with the hero hitbox narrowed to 30 percent - 70 percent of its width. -/
def hitB (h : Hero) (m : Monster) : Bool :=
  decide (m.x < h.x + h.width * 0.7) &&
  decide (m.x + m.width > h.x + h.width * 0.3) &&
  decide (m.y < h.y + h.height) &&
  decide (m.y + m.height > h.y)

/-- A colliding monster whose required weapon mismatches the hero's. -/
def mismatchB (h : Hero) (m : Monster) : Bool :=
  hitB h m && ! decide (h.weapon = requiredFor m.mtype)

/-- The whole mutable session state of class Game. -/
structure Game where
  levelIndex : Nat
  monsters : List Monster
  spawnTimer : ℚ
  spawnInterval : ℚ
  monstersSpawned : Nat
  monstersDefeated : Nat
  monstersToSpawn : Nat
  nextChoiceAt : Nat
  hearts : ℤ
  hero : Hero
  bgX : ℚ
  gameState : GState
  choiceActive : Bool
  leftOption : Weapon
  rightOption : Weapon
  damageFlash : Option ℚ
  deriving DecidableEq

/-- Game.reset (lines 184-199): the state right after construction. -/
def initGame : Game :=
  { levelIndex := 0, monsters := [], spawnTimer := 0, spawnInterval := 1000,
    monstersSpawned := 0, monstersDefeated := 0, monstersToSpawn := 0,
    nextChoiceAt := 0, hearts := 3,
    hero := { x := 0, y := 0, width := 80, height := 80, weapon := Weapon.sword },
    bgX := 0, gameState := GState.intro, choiceActive := false,
    leftOption := Weapon.sword, rightOption := Weapon.magic,
    damageFlash := none }

/-- randomizeChoices (lines 221-231): Math.random() < 0.5 keeps
left = sword; `coin` = true models the other branch. -/
def randomize (coin : Bool) : Weapon × Weapon :=
  if coin then (Weapon.magic, Weapon.sword) else (Weapon.sword, Weapon.magic)

/-- Game.startLevel (lines 200-220).  It does not touch damageFlash. -/
def startLevel (E : Env) (index : Nat) (coin : Bool) (g : Game) : Game :=
  let toSpawn := (levelAt index).monsterCount
  { g with
    levelIndex := index,
    hearts := 3,
    monsters := [],
    spawnTimer := 0,
    spawnInterval := max 400 ((1000 : ℚ) - (index : ℚ) * 50),
    monstersSpawned := 0,
    monstersDefeated := 0,
    monstersToSpawn := toSpawn,
    nextChoiceAt := min 3 toSpawn,
    hero := { (g.hero.resetPosition E) with weapon := Weapon.sword },
    bgX := 0,
    gameState := GState.choice,
    choiceActive := true,
    leftOption := (randomize coin).1,
    rightOption := (randomize coin).2 }

/-- handleChoiceSelection (lines 436-443): only acts in the choice state;
`left` = true selects the left option. -/
def selectChoice (left : Bool) (g : Game) : Game :=
  if g.gameState = GState.choice then
    { g with
      hero := { g.hero with weapon := if left then g.leftOption else g.rightOption },
      choiceActive := false,
      gameState := GState.playing }
  else g

/-- The per-frame oracle: elapsed seconds and the random draws a frame
may consume (monster kind, spawn offset, choice shuffle). -/
structure FrameInput where
  delta : ℚ
  mtype : MType
  rand : ℚ
  coin : Bool
  deriving DecidableEq

/-- Realisability of a frame input: time moves forward and
Math.random() yields a value in [0,1). -/
def FrameInput.valid (i : FrameInput) : Prop :=
  0 ≤ i.delta ∧ 0 ≤ i.rand ∧ i.rand < 1

instance (i : FrameInput) : Decidable i.valid := by
  unfold FrameInput.valid; infer_instance

/-- Background scroll of Game.update (lines 244-248), run in every state. -/
def scrollBg (E : Env) (speed delta bg : ℚ) : ℚ :=
  let b := bg - speed * delta
  if b ≤ -E.canvasW then b + E.canvasW else b

/-- Spawn phase (lines 251-255): returns the monster list, the spawned
counter and the spawn timer after the spawn check. -/
def spawnPhase (E : Env) (inp : FrameInput) (g : Game) : List Monster × Nat × ℚ :=
  let st := g.spawnTimer + inp.delta * 1000
  if g.monstersSpawned < g.monstersToSpawn ∧ g.spawnInterval ≤ st then
    (g.monsters ++ [newMonster E inp.mtype inp.rand], g.monstersSpawned + 1, 0)
  else
    (g.monsters, g.monstersSpawned, st)

/-- Movement and offscreen-cull loop (lines 257-265).  The source
iterates backward over the array and splices out offscreen monsters;
each element is moved once and examined once independently, which this
recursion reproduces.  Returns the surviving list and the escape count. -/
def moveCull (dt sp : ℚ) : List Monster → List Monster × Nat
  | [] => ([], 0)
  | m :: rest =>
    let m2 := moveMonster dt sp m
    let r := moveCull dt sp rest
    if offscreenB m2 then (r.1, r.2 + 1) else (m2 :: r.1, r.2)

/-- Collision loop (lines 266-289), again a backward splice loop with
elementwise-independent decisions.  Returns the surviving list, the
number defeated, the hearts lost and whether a damage flash was armed. -/
def resolveCollisions (h : Hero) : List Monster → List Monster × Nat × Nat × Bool
  | [] => ([], 0, 0, false)
  | m :: rest =>
    let r := resolveCollisions h rest
    if hitB h m then
      if h.weapon = requiredFor m.mtype then
        (r.1, r.2.1 + 1, r.2.2.1, r.2.2.2)
      else
        (r.1, r.2.1 + 1, r.2.2.1 + 1, true)
    else
      (m :: r.1, r.2.1, r.2.2.1, r.2.2.2)

/-- Monster list after the spawn and movement phases, before culling. -/
def movedList (E : Env) (inp : FrameInput) (g : Game) : List Monster :=
  ((spawnPhase E inp g).1).map (moveMonster (inp.delta * 100) (levelAt g.levelIndex).speed)

/-- Result of the movement/cull phase inside a playing frame. -/
def postMove (E : Env) (inp : FrameInput) (g : Game) : List Monster × Nat :=
  moveCull (inp.delta * 100) (levelAt g.levelIndex).speed (spawnPhase E inp g).1

/-- Monsters that survived the offscreen cull. -/
def survivors (E : Env) (inp : FrameInput) (g : Game) : List Monster :=
  (postMove E inp g).1

/-- Result of the collision phase inside a playing frame. -/
def postColl (E : Env) (inp : FrameInput) (g : Game) : List Monster × Nat × Nat × Bool :=
  resolveCollisions g.hero (survivors E inp g)

/-- monstersDefeated after a playing frame (escapes + collisions). -/
def newDefeated (E : Env) (inp : FrameInput) (g : Game) : Nat :=
  g.monstersDefeated + (postMove E inp g).2 + (postColl E inp g).2.1

/-- hearts after a playing frame: one lost per mismatched collision. -/
def newHearts (E : Env) (inp : FrameInput) (g : Game) : ℤ :=
  g.hearts - ((postColl E inp g).2.2.1 : ℤ)

/-- Damage flash after a playing frame: armed to 0.2 s on a mismatch
(line 286), then decremented by delta and cleared at 0 (lines 291-294). -/
def newFlash (E : Env) (inp : FrameInput) (g : Game) : Option ℚ :=
  let d1 := if (postColl E inp g).2.2.2 then some (0.2 : ℚ) else g.damageFlash
  match d1 with
  | none => none
  | some t => if t - inp.delta ≤ 0 then none else some (t - inp.delta)

/-- The next-choice trigger condition (line 296). -/
def choiceTrigB (E : Env) (inp : FrameInput) (g : Game) : Bool :=
  !g.choiceActive &&
  decide (g.nextChoiceAt ≤ newDefeated E inp g) &&
  decide (newDefeated E inp g < g.monstersToSpawn)

/-- gameState after the choice check (lines 296-302). -/
def stateAfterChoice (E : Env) (inp : FrameInput) (g : Game) : GState :=
  if choiceTrigB E inp g then GState.choice else g.gameState

/-- gameState after the game-over check (lines 304-306). -/
def stateAfterGameOver (E : Env) (inp : FrameInput) (g : Game) : GState :=
  if newHearts E inp g ≤ 0 then GState.gameOver else stateAfterChoice E inp g

/-- The level-completion condition (line 308). -/
def levelClear (E : Env) (inp : FrameInput) (g : Game) : Prop :=
  g.monstersToSpawn ≤ newDefeated E inp g ∧ (postColl E inp g).1.length = 0

instance (E : Env) (inp : FrameInput) (g : Game) : Decidable (levelClear E inp g) := by
  unfold levelClear; infer_instance

/-- gameState at the end of a playing frame (lines 296-310): the
level-completion check runs last and overwrites the game-over check. -/
def newState (E : Env) (inp : FrameInput) (g : Game) : GState :=
  if levelClear E inp g then GState.levelEnd else stateAfterGameOver E inp g

/-- The 'playing' branch of Game.update (lines 249-311). -/
def updatePlaying (E : Env) (inp : FrameInput) (g : Game) : Game :=
  { g with
    bgX := scrollBg E (levelAt g.levelIndex).speed inp.delta g.bgX,
    monsters := (postColl E inp g).1,
    spawnTimer := (spawnPhase E inp g).2.2,
    monstersSpawned := (spawnPhase E inp g).2.1,
    monstersDefeated := newDefeated E inp g,
    hearts := newHearts E inp g,
    damageFlash := newFlash E inp g,
    nextChoiceAt :=
      if choiceTrigB E inp g then min (g.nextChoiceAt + 3) g.monstersToSpawn
      else g.nextChoiceAt,
    choiceActive := if choiceTrigB E inp g then true else g.choiceActive,
    leftOption := if choiceTrigB E inp g then (randomize inp.coin).1 else g.leftOption,
    rightOption := if choiceTrigB E inp g then (randomize inp.coin).2 else g.rightOption,
    gameState := newState E inp g }

/-- Game.update (lines 240-312): the background always scrolls; the
simulation body runs only in the 'playing' state. -/
def update (E : Env) (inp : FrameInput) (g : Game) : Game :=
  if g.gameState = GState.playing then updatePlaying E inp g
  else { g with bgX := scrollBg E (levelAt g.levelIndex).speed inp.delta g.bgX }

/-- Level advance / restart from the input handlers (lines 444-485):
from levelEnd, go to the next level or wrap to level 0 after the last;
from gameOver, restart at level 0. -/
def advanceLevel (E : Env) (coin : Bool) (g : Game) : Game :=
  if g.levelIndex < LEVELS.length - 1 then startLevel E (g.levelIndex + 1) coin g
  else startLevel E 0 coin g

/-- The states a session can reach: the game is created and startLevel 0
runs (line 492), then frames, choice selections and the levelEnd /
gameOver input transitions follow, each with realisable random draws. -/
inductive Reachable (E : Env) : Game → Prop
  | start (coin : Bool) : Reachable E (startLevel E 0 coin initGame)
  | frame {g : Game} (inp : FrameInput) : inp.valid → Reachable E g →
      Reachable E (update E inp g)
  | select {g : Game} (left : Bool) : Reachable E g →
      Reachable E (selectChoice left g)
  | advance {g : Game} (coin : Bool) : Reachable E g →
      g.gameState = GState.levelEnd → Reachable E (advanceLevel E coin g)
  | restart {g : Game} (coin : Bool) : Reachable E g →
      g.gameState = GState.gameOver → Reachable E (startLevel E 0 coin g)

/-! ### Concrete executions

A 1000 x 1000 canvas.  The hero sits at x = 100 with width 150, so a
monster (width 120) overlaps the narrowed hitbox exactly when its x lies
in (25, 205).  Each frame lasts one second, so level-0 monsters move 200
pixels per frame and one monster spawns per frame until the quota. -/

def E0 : Env := ⟨1000, 1000⟩

/-- A one-second frame that would spawn a ghost at offset draw `r`. -/
def iG (r : ℚ) : FrameInput := ⟨1, MType.ghost, r, false⟩

/-- A one-second frame that would spawn a beast at offset draw `r`. -/
def iB (r : ℚ) : FrameInput := ⟨1, MType.beast, r, false⟩

/-- A zero-length frame (no movement, no spawn progress). -/
def i00 : FrameInput := ⟨0, MType.ghost, 0, false⟩

/-- Trace A: the hero keeps the sword against five ghosts.  Spawn draws
0.2, 0.2, 0.2, 0, 0 put two monsters inside the hitbox on the seventh
frame while hearts is 1, so that frame loses two hearts at once. -/
def gA0 : Game := startLevel E0 0 false initGame

def gA1 : Game := selectChoice true gA0

def gA2 : Game := update E0 (iG 0.2) gA1

def gA3 : Game := update E0 (iG 0.2) gA2

def gA4 : Game := update E0 (iG 0.2) gA3

def gA5 : Game := update E0 (iG 0) gA4

def gA6 : Game := update E0 (iG 0) gA5

def gA7 : Game := update E0 (iG 0) gA6

def gA8 : Game := update E0 (iG 0) gA7

/-! ### Hand-built states used to instantiate theorems with hypotheses -/

/-- A hero positioned as on the 1000 x 1000 canvas of `E0`. -/
def wHero : Hero := ⟨100, 750, 150, 150, Weapon.sword⟩

/-- A ghost inside the hero hitbox (x in (25, 205)). -/
def collM : Monster := ⟨MType.ghost, 150, 780, 120, 120, Weapon.magic⟩

/-- A ghost far to the right of the hero. -/
def farM : Monster := ⟨MType.ghost, 900, 780, 120, 120, Weapon.magic⟩

/-- A ghost fully past the left edge of the screen. -/
def offM : Monster := ⟨MType.ghost, -200, 780, 120, 120, Weapon.magic⟩

/-- Mid-level-1 state on 1 heart: a mismatched collision plus a distant
survivor, so the next frame hits 0 hearts without clearing the level. -/
def wG2 : Game :=
  { levelIndex := 1, monsters := [collM, farM], spawnTimer := 0,
    spawnInterval := 950, monstersSpawned := 6, monstersDefeated := 4,
    monstersToSpawn := 8, nextChoiceAt := 6, hearts := 1, hero := wHero,
    bgX := 0, gameState := GState.playing, choiceActive := false,
    leftOption := Weapon.sword, rightOption := Weapon.magic,
    damageFlash := none }

/-- State whose only remaining monster has escaped off the left edge. -/
def wG7 : Game :=
  { levelIndex := 0, monsters := [offM], spawnTimer := 0,
    spawnInterval := 1000, monstersSpawned := 5, monstersDefeated := 2,
    monstersToSpawn := 5, nextChoiceAt := 5, hearts := 3, hero := wHero,
    bgX := 0, gameState := GState.playing, choiceActive := false,
    leftOption := Weapon.sword, rightOption := Weapon.magic,
    damageFlash := none }

/-- The hearts bounds that actually hold on reachable states: never
above 3, never more than one loss per defeat, and strictly positive
whenever the simulation is running or a choice is pending. -/
def HeartsInv (g : Game) : Prop :=
  g.hearts ≤ 3 ∧ 3 - (g.monstersDefeated : ℤ) ≤ g.hearts ∧
  ((g.gameState = GState.playing ∨ g.gameState = GState.choice) → 1 ≤ g.hearts)

/-- The counter bookkeeping: defeats plus live monsters equal spawns,
and spawns never pass the quota. -/
def CountInv (g : Game) : Prop :=
  g.monstersDefeated + g.monsters.length = g.monstersSpawned ∧
  g.monstersSpawned ≤ g.monstersToSpawn ∧
  g.monstersDefeated ≤ g.monstersToSpawn

/-! ### Characterisations of the loop phases -/

/-- The movement/cull loop computes: move every monster, drop the
offscreen ones, count the drops. -/
lemma moveCull_eq (dt sp : ℚ) (l : List Monster) :
    moveCull dt sp l =
      ((l.map (moveMonster dt sp)).filter (fun m => ! offscreenB m),
       (l.map (moveMonster dt sp)).countP offscreenB) := by
  induction l with
  | nil => rfl
  | cons m rest ih =>
    simp only [moveCull, ih, List.map_cons, List.filter_cons, List.countP_cons]
    by_cases hoff : offscreenB (moveMonster dt sp m)
    · simp [hoff]
    · simp [hoff]

/-- The collision loop computes: keep the non-colliding monsters, count
the collisions and the mismatched collisions, and flag any mismatch. -/
lemma resolveCollisions_eq (h : Hero) (l : List Monster) :
    resolveCollisions h l =
      (l.filter (fun m => ! hitB h m),
       l.countP (fun m => hitB h m),
       l.countP (mismatchB h),
       l.any (mismatchB h)) := by
  induction l with
  | nil => rfl
  | cons m rest ih =>
    simp only [resolveCollisions, ih, List.filter_cons, List.countP_cons, List.any_cons]
    by_cases h1 : hitB h m
    · by_cases h2 : h.weapon = requiredFor m.mtype
      · simp [mismatchB, h1, h2]
      · simp [mismatchB, h1, h2]
    · simp [mismatchB, h1]

/-- Survivors plus escapes account for every monster that entered the
movement loop. -/
lemma moveCull_len (dt sp : ℚ) (l : List Monster) :
    (moveCull dt sp l).1.length + (moveCull dt sp l).2 = l.length := by
  induction l with
  | nil => rfl
  | cons m rest ih =>
    simp only [moveCull]
    split
    · simpa using by omega
    · simpa using by omega

/-- Survivors plus defeats account for every monster that entered the
collision loop. -/
lemma resolve_len (h : Hero) (l : List Monster) :
    (resolveCollisions h l).1.length + (resolveCollisions h l).2.1 = l.length := by
  induction l with
  | nil => rfl
  | cons m rest ih =>
    simp only [resolveCollisions]
    by_cases h1 : hitB h m
    · by_cases h2 : h.weapon = requiredFor m.mtype <;> simp [h1, h2] <;> omega
    · simp [h1]; omega

/-- The collision loop loses at most one heart per defeated monster. -/
lemma resolve_hl_le (h : Hero) (l : List Monster) :
    (resolveCollisions h l).2.2.1 ≤ (resolveCollisions h l).2.1 := by
  induction l with
  | nil => exact Nat.le_refl 0
  | cons m rest ih =>
    simp only [resolveCollisions]
    by_cases h1 : hitB h m
    · by_cases h2 : h.weapon = requiredFor m.mtype <;> simp [h1, h2] <;> omega
    · simp [h1]; omega

/-- In the 'playing' state, update runs the full playing branch. -/
lemma update_playing (E : Env) (inp : FrameInput) (g : Game)
    (h : g.gameState = GState.playing) : update E inp g = updatePlaying E inp g := by
  simp [update, h]

/-- Outside the 'playing' state, update only advances the scroll. -/
lemma update_not_playing (E : Env) (inp : FrameInput) (g : Game)
    (h : g.gameState ≠ GState.playing) :
    update E inp g =
      { g with bgX := scrollBg E (levelAt g.levelIndex).speed inp.delta g.bgX } := by
  simp [update, h]

/-- The cull phase result, spelled with filter and countP. -/
lemma postMove_snd (E : Env) (inp : FrameInput) (g : Game) :
    (postMove E inp g).2 = (movedList E inp g).countP offscreenB := by
  unfold postMove movedList
  rw [moveCull_eq]

/-- The survivors of the cull phase are the onscreen moved monsters. -/
lemma survivors_eq (E : Env) (inp : FrameInput) (g : Game) :
    survivors E inp g = (movedList E inp g).filter (fun m => ! offscreenB m) := by
  unfold survivors postMove movedList
  rw [moveCull_eq]

/-- The collision phase result, spelled with filter, countP and any. -/
lemma postColl_eq (E : Env) (inp : FrameInput) (g : Game) :
    postColl E inp g =
      ((survivors E inp g).filter (fun m => ! hitB g.hero m),
       (survivors E inp g).countP (fun m => hitB g.hero m),
       (survivors E inp g).countP (mismatchB g.hero),
       (survivors E inp g).any (mismatchB g.hero)) := by
  unfold postColl
  rw [resolveCollisions_eq]

lemma validG (r : ℚ) (h1 : 0 ≤ r) (h2 : r < 1) : (iG r).valid := ⟨by norm_num [iG], h1, h2⟩

lemma validB (r : ℚ) (h1 : 0 ≤ r) (h2 : r < 1) : (iB r).valid := ⟨by norm_num [iB], h1, h2⟩

lemma reachA7 : Reachable E0 gA7 :=
  Reachable.frame (iG 0) (validG 0 le_rfl (by norm_num))
    (Reachable.frame (iG 0) (validG 0 le_rfl (by norm_num))
      (Reachable.frame (iG 0) (validG 0 le_rfl (by norm_num))
        (Reachable.frame (iG 0.2) (validG 0.2 (by norm_num) (by norm_num))
          (Reachable.frame (iG 0.2) (validG 0.2 (by norm_num) (by norm_num))
            (Reachable.frame (iG 0.2) (validG 0.2 (by norm_num) (by norm_num))
              (Reachable.select true (Reachable.start false)))))))

lemma reachA8 : Reachable E0 gA8 :=
  Reachable.frame (iG 0) (validG 0 le_rfl (by norm_num)) reachA7

/-- Trace B: ghost, ghost, beast, beast, ghost against a sword.  Two
mismatches cost two hearts, the third defeat opens a choice, and the
final mismatched collision empties the level exactly when hearts hits 0. -/
def gB0 : Game := startLevel E0 0 false initGame

def gB1 : Game := selectChoice true gB0

def gB2 : Game := update E0 (iG 0.2) gB1

def gB3 : Game := update E0 (iG 0.2) gB2

def gB4 : Game := update E0 (iB 0.2) gB3

def gB5 : Game := update E0 (iB 0.2) gB4

def gB6 : Game := update E0 (iG 0.2) gB5

def gB7 : Game := update E0 (iG 0.2) gB6

def gB8 : Game := update E0 (iG 0.2) gB7

def gB9 : Game := selectChoice true gB8

def gB10 : Game := update E0 (iG 0.2) gB9

def gB11 : Game := update E0 (iG 0.2) gB10

lemma reachB7 : Reachable E0 gB7 :=
  Reachable.frame (iG 0.2) (validG 0.2 (by norm_num) (by norm_num))
    (Reachable.frame (iG 0.2) (validG 0.2 (by norm_num) (by norm_num))
      (Reachable.frame (iB 0.2) (validB 0.2 (by norm_num) (by norm_num))
        (Reachable.frame (iB 0.2) (validB 0.2 (by norm_num) (by norm_num))
          (Reachable.frame (iG 0.2) (validG 0.2 (by norm_num) (by norm_num))
            (Reachable.frame (iG 0.2) (validG 0.2 (by norm_num) (by norm_num))
              (Reachable.select true (Reachable.start false)))))))

lemma reachB10 : Reachable E0 gB10 :=
  Reachable.frame (iG 0.2) (validG 0.2 (by norm_num) (by norm_num))
    (Reachable.select true
      (Reachable.frame (iG 0.2) (validG 0.2 (by norm_num) (by norm_num)) reachB7))

/-! ### Claim theorems -/

/-- Claim C10: startLevel(i) restores full hearts, empties the monster
list, zeroes the spawn and defeat counters and the spawn timer, resets
the hero's weapon to the sword, records the level index and enters the
choice state — damage never carries over between levels or restarts. -/
theorem startLevel_resets (E : Env) (i : Nat) (coin : Bool) (g : Game) :
    (startLevel E i coin g).hearts = 3 ∧
    (startLevel E i coin g).monsters = [] ∧
    (startLevel E i coin g).monstersSpawned = 0 ∧
    (startLevel E i coin g).monstersDefeated = 0 ∧
    (startLevel E i coin g).spawnTimer = 0 ∧
    (startLevel E i coin g).hero.weapon = Weapon.sword ∧
    (startLevel E i coin g).gameState = GState.choice ∧
    (startLevel E i coin g).levelIndex = i :=
  ⟨rfl, rfl, rfl, rfl, rfl, rfl, rfl, rfl⟩

/-- Claim C9 (counterexample): the claim that an update in the 'choice'
state leaves the whole session unchanged is false — the freshly started
(hence reachable) level-0 session is in the choice state, yet a
one-second frame moves its background scroll offset. -/
theorem paused_scroll_cex :
    Reachable E0 gA0 ∧ gA0.gameState = GState.choice ∧
    (update E0 (iG 0) gA0).bgX ≠ gA0.bgX :=
  ⟨Reachable.start false, rfl, by with_unfolding_all decide⟩

/-- Claim C9 (amended): in the choice, levelEnd and gameOver states an
update step leaves every field of the session unchanged except the
background scroll offset, which continues to advance every frame. -/
theorem paused_states_scroll_only (E : Env) (inp : FrameInput) (g : Game)
    (h : g.gameState ≠ GState.playing) :
    (update E inp g).hearts = g.hearts ∧
    (update E inp g).monsters = g.monsters ∧
    (update E inp g).gameState = g.gameState ∧
    (update E inp g).monstersDefeated = g.monstersDefeated ∧
    (update E inp g).monstersSpawned = g.monstersSpawned ∧
    (update E inp g).monstersToSpawn = g.monstersToSpawn ∧
    (update E inp g).spawnTimer = g.spawnTimer ∧
    (update E inp g).spawnInterval = g.spawnInterval ∧
    (update E inp g).nextChoiceAt = g.nextChoiceAt ∧
    (update E inp g).choiceActive = g.choiceActive ∧
    (update E inp g).leftOption = g.leftOption ∧
    (update E inp g).rightOption = g.rightOption ∧
    (update E inp g).hero = g.hero ∧
    (update E inp g).levelIndex = g.levelIndex ∧
    (update E inp g).damageFlash = g.damageFlash := by
  rw [update_not_playing E inp g h]
  exact ⟨rfl, rfl, rfl, rfl, rfl, rfl, rfl, rfl, rfl, rfl, rfl, rfl, rfl, rfl, rfl⟩

/-- Claim C9 (witness): the amended statement applied to the reachable
choice-state session gA0 with a one-second frame. -/
theorem paused_states_scroll_only_witness :
    (update E0 (iG 0) gA0).hearts = gA0.hearts ∧
    (update E0 (iG 0) gA0).monsters = gA0.monsters ∧
    (update E0 (iG 0) gA0).gameState = gA0.gameState :=
  have h := paused_states_scroll_only E0 (iG 0) gA0 (by with_unfolding_all decide)
  ⟨h.1, h.2.1, h.2.2.1⟩

/-- Claim C4: a playing-state update ends in 'levelEnd' exactly when,
after the frame's bookkeeping, the defeat counter has reached the quota
and the active monster list is empty — never earlier. -/
theorem level_end_iff (E : Env) (inp : FrameInput) (g : Game)
    (h : g.gameState = GState.playing) :
    (update E inp g).gameState = GState.levelEnd ↔
      ((update E inp g).monstersToSpawn ≤ (update E inp g).monstersDefeated ∧
       (update E inp g).monsters = []) := by
  rw [update_playing E inp g h]
  show newState E inp g = GState.levelEnd ↔
      (g.monstersToSpawn ≤ newDefeated E inp g ∧ (postColl E inp g).1 = [])
  unfold newState
  by_cases hc : levelClear E inp g
  · rw [if_pos hc]
    simp only [true_iff]
    exact ⟨hc.1, List.length_eq_zero.mp hc.2⟩
  · rw [if_neg hc]
    constructor
    · intro hst
      exfalso
      unfold stateAfterGameOver at hst
      split at hst
      · exact absurd hst (by decide)
      · unfold stateAfterChoice at hst
        split at hst
        · exact absurd hst (by decide)
        · rw [h] at hst
          exact absurd hst (by decide)
    · rintro ⟨h1, h2⟩
      exact absurd ⟨h1, by rw [h2]; rfl⟩ hc

/-- Claim C4 (witness): on the reachable state gB10 the final frame of
trace B defeats the last monster, and the biconditional certifies the
transition to levelEnd. -/
theorem level_end_iff_witness :
    (update E0 (iG 0.2) gB10).gameState = GState.levelEnd :=
  (level_end_iff E0 (iG 0.2) gB10 (by with_unfolding_all decide)).mpr
    (by with_unfolding_all decide)

/-- levelAt agrees with in-range indexing into the LEVELS table. -/
lemma levelAt_lt (i : Nat) (hi : i < LEVELS.length) :
    levelAt i = LEVELS.get ⟨i, hi⟩ := by
  unfold levelAt
  rw [List.getD_eq_getElem?_getD, List.getElem?_eq_getElem hi]
  rfl

/-- Claim C6: for every level index the quota monstersToSpawn is that
level's configured monsterCount, the spawn interval is
max(400, 1000 - 50 * index) milliseconds, and once the spawned counter
has reached the quota an update step spawns nothing further (both
counters are preserved, so this persists for the rest of the level). -/
theorem spawn_config (E : Env) (i : Nat) (coin : Bool) (g : Game)
    (hi : i < LEVELS.length) :
    (startLevel E i coin g).monstersToSpawn = (LEVELS.get ⟨i, hi⟩).monsterCount ∧
    (startLevel E i coin g).spawnInterval = max 400 ((1000 : ℚ) - (i : ℚ) * 50) ∧
    ∀ (inp : FrameInput) (g2 : Game), g2.monstersToSpawn ≤ g2.monstersSpawned →
      (update E inp g2).monstersSpawned = g2.monstersSpawned ∧
      (update E inp g2).monstersToSpawn = g2.monstersToSpawn := by
  refine ⟨by rw [← levelAt_lt i hi]; rfl, rfl, ?_⟩
  intro inp g2 hle
  have hs : ¬(g2.monstersSpawned < g2.monstersToSpawn ∧
      g2.spawnInterval ≤ g2.spawnTimer + inp.delta * 1000) := by
    rintro ⟨h1, -⟩
    omega
  by_cases hp : g2.gameState = GState.playing
  · rw [update_playing E inp g2 hp]
    constructor
    · show (spawnPhase E inp g2).2.1 = g2.monstersSpawned
      unfold spawnPhase
      rw [if_neg hs]
    · rfl
  · rw [update_not_playing E inp g2 hp]
    exact ⟨rfl, rfl⟩

/-- Claim C6 (witness): level 0 has quota 5 and interval 1000 ms, and the
reachable playing state gB10 with all five monsters spawned admits no
sixth spawn. -/
theorem spawn_config_witness :
    (startLevel E0 0 false initGame).monstersToSpawn = 5 ∧
    (startLevel E0 0 false initGame).spawnInterval = 1000 ∧
    (update E0 (iG 0.2) gB10).monstersSpawned = gB10.monstersSpawned := by
  have h := spawn_config E0 0 false initGame (by decide)
  refine ⟨h.1.trans (by decide), h.2.1.trans (by with_unfolding_all decide), ?_⟩
  exact (h.2.2 (iG 0.2) gB10 (by with_unfolding_all decide)).1

/-- Claim C3: in a playing frame the collision pass removes exactly the
monsters overlapping the hero's narrowed hitbox; hearts drop by exactly
the number of mismatched collisions (so a matching collision never costs
a heart and a mismatch costs exactly one); every collision counts toward
monstersDefeated, together with the escapes; and any mismatch arms the
0.2-second damage flash. -/
theorem collision_resolution (E : Env) (inp : FrameInput) (g : Game)
    (h : g.gameState = GState.playing) :
    (update E inp g).hearts =
      g.hearts - ((survivors E inp g).countP (mismatchB g.hero) : ℤ) ∧
    (update E inp g).monsters =
      (survivors E inp g).filter (fun m => ! hitB g.hero m) ∧
    (update E inp g).monstersDefeated =
      g.monstersDefeated + (movedList E inp g).countP offscreenB +
        (survivors E inp g).countP (fun m => hitB g.hero m) ∧
    (0 < (survivors E inp g).countP (mismatchB g.hero) →
      (update E inp g).damageFlash =
        if (0.2 : ℚ) - inp.delta ≤ 0 then none else some ((0.2 : ℚ) - inp.delta)) := by
  rw [update_playing E inp g h]
  refine ⟨?_, ?_, ?_, ?_⟩
  · show newHearts E inp g = _
    unfold newHearts
    rw [postColl_eq]
  · show (postColl E inp g).1 = _
    rw [postColl_eq]
  · show newDefeated E inp g = _
    unfold newDefeated
    rw [postColl_eq, postMove_snd]
  · intro hpos
    have hany : (survivors E inp g).any (mismatchB g.hero) = true :=
      List.any_eq_true.mpr (List.countP_pos_iff.mp hpos)
    show newFlash E inp g = _
    unfold newFlash
    rw [postColl_eq]
    simp only [hany, if_true]

/-- Claim C3 (witness): the sixth frame of trace B is a single
mismatched collision — it costs exactly one heart, removes the monster,
counts it as defeated, and the flash timer has already expired by the
end of the one-second frame. -/
theorem collision_resolution_witness :
    (update E0 (iG 0.2) gB6).hearts = gB6.hearts - 1 ∧
    (update E0 (iG 0.2) gB6).monstersDefeated = gB6.monstersDefeated + 1 ∧
    (update E0 (iG 0.2) gB6).damageFlash = none := by
  have h := collision_resolution E0 (iG 0.2) gB6 (by with_unfolding_all decide)
  refine ⟨?_, ?_, ?_⟩
  · rw [h.1]
    with_unfolding_all decide
  · rw [h.2.2.1]
    with_unfolding_all decide
  · rw [h.2.2.2 (by with_unfolding_all decide)]
    with_unfolding_all decide

/-- Claim C7: every monster that has fully crossed the left edge is
removed by the playing frame that observes it; the escapes are counted
into monstersDefeated exactly like collision defeats; and hearts depend
only on the mismatched collisions among the onscreen survivors, so an
escape is never penalised. -/
theorem offscreen_escape (E : Env) (inp : FrameInput) (g : Game)
    (h : g.gameState = GState.playing) :
    (∀ m ∈ movedList E inp g, offscreenB m = true → m ∉ (update E inp g).monsters) ∧
    (update E inp g).monstersDefeated =
      g.monstersDefeated + (movedList E inp g).countP offscreenB +
        (survivors E inp g).countP (fun m => hitB g.hero m) ∧
    ((survivors E inp g).countP (mismatchB g.hero) = 0 →
      (update E inp g).hearts = g.hearts) := by
  rw [update_playing E inp g h]
  refine ⟨?_, ?_, ?_⟩
  · intro m hm hoff hmem
    have hmem' : m ∈ (postColl E inp g).1 := hmem
    rw [postColl_eq] at hmem'
    have hsurv : m ∈ survivors E inp g := (List.mem_filter.mp hmem').1
    rw [survivors_eq] at hsurv
    have hon : (! offscreenB m) = true := (List.mem_filter.mp hsurv).2
    rw [hoff] at hon
    exact absurd hon (by decide)
  · show newDefeated E inp g = _
    unfold newDefeated
    rw [postColl_eq, postMove_snd]
  · intro h0
    show newHearts E inp g = g.hearts
    unfold newHearts
    rw [postColl_eq]
    simp only [h0]
    exact sub_zero g.hearts

/-- Claim C7 (witness): in the state wG7 the lone monster has escaped;
the frame removes it, counts it as defeated, and hearts are untouched. -/
theorem offscreen_escape_witness :
    offM ∉ (update E0 i00 wG7).monsters ∧
    (update E0 i00 wG7).monstersDefeated = 3 ∧
    (update E0 i00 wG7).hearts = wG7.hearts := by
  have h := offscreen_escape E0 i00 wG7 (by with_unfolding_all decide)
  refine ⟨h.1 offM (by with_unfolding_all decide) (by with_unfolding_all decide), ?_,
    h.2.2 (by with_unfolding_all decide)⟩
  rw [h.2.1]
  with_unfolding_all decide

/-- Claim C2 (counterexample): the claim that reaching 0 hearts always
yields 'gameOver', pre-empting level completion, is false.  In the
reachable playing state gB10 the final frame's mismatched collision
brings hearts to 0 and simultaneously clears the level, and the session
ends in 'levelEnd', not 'gameOver' — the source's level-completion check
runs after the game-over check and overwrites it. -/
theorem gameover_preempt_cex :
    Reachable E0 gB10 ∧ gB10.gameState = GState.playing ∧
    gB10.hearts = 1 ∧
    (update E0 (iG 0.2) gB10).hearts = 0 ∧
    (update E0 (iG 0.2) gB10).gameState = GState.levelEnd ∧
    (update E0 (iG 0.2) gB10).gameState ≠ GState.gameOver :=
  ⟨reachB10, by with_unfolding_all decide, by with_unfolding_all decide,
   by with_unfolding_all decide, by with_unfolding_all decide,
   by with_unfolding_all decide⟩

/-- Claim C2 (amended): when a playing frame ends with hearts at or
below 0, the session transitions to 'gameOver' on that same frame —
unless the level-completion condition also holds on that frame, in which
case 'levelEnd' wins, because the source checks it last. -/
theorem zero_hearts_transition (E : Env) (inp : FrameInput) (g : Game)
    (h : g.gameState = GState.playing)
    (h0 : (update E inp g).hearts ≤ 0) :
    (update E inp g).gameState =
      if (update E inp g).monstersToSpawn ≤ (update E inp g).monstersDefeated ∧
         (update E inp g).monsters = [] then GState.levelEnd else GState.gameOver := by
  rw [update_playing E inp g h] at h0 ⊢
  have h0' : newHearts E inp g ≤ 0 := h0
  show newState E inp g =
      if g.monstersToSpawn ≤ newDefeated E inp g ∧ (postColl E inp g).1 = [] then
        GState.levelEnd else GState.gameOver
  unfold newState stateAfterGameOver
  rw [if_pos h0']
  by_cases hc : levelClear E inp g
  · rw [if_pos hc, if_pos ⟨hc.1, List.length_eq_zero.mp hc.2⟩]
  · rw [if_neg hc, if_neg (fun hcc => hc ⟨hcc.1, by rw [hcc.2]; rfl⟩)]

/-- Claim C2 (witness): in the state wG2 the frame drops hearts from 1
to 0 while a monster is still alive, so the session ends in gameOver. -/
theorem zero_hearts_transition_witness :
    (update E0 i00 wG2).gameState = GState.gameOver := by
  have h := zero_hearts_transition E0 i00 wG2 (by with_unfolding_all decide)
    (by with_unfolding_all decide)
  rw [h]
  with_unfolding_all decide

/-- Claim C5 (counterexample): the claim that crossing the choice
threshold below the quota always re-enters 'choice' is false.  In the
reachable playing state gA7 (hearts 1, threshold 3, quota 5, no choice
pending) the next frame's two simultaneous mismatched collisions push
the defeat count to 4, across the threshold and below the quota, yet the
session ends in 'gameOver' because hearts dropped to -1 on the same
frame: the game-over check overwrites the freshly set choice state. -/
theorem choice_trigger_cex :
    Reachable E0 gA7 ∧ gA7.gameState = GState.playing ∧
    gA7.choiceActive = false ∧
    gA7.nextChoiceAt ≤ (update E0 (iG 0) gA7).monstersDefeated ∧
    (update E0 (iG 0) gA7).monstersDefeated < gA7.monstersToSpawn ∧
    (update E0 (iG 0) gA7).gameState ≠ GState.choice :=
  ⟨reachA7, by with_unfolding_all decide, by with_unfolding_all decide,
   by with_unfolding_all decide, by with_unfolding_all decide,
   by with_unfolding_all decide⟩

/-- Claim C5 (amended): at level start the choice threshold is
min(3, quota); during a playing frame with no choice pending, if the
defeat counter ends at or past the threshold and still below the quota,
then the threshold advances by 3 capped at the quota, and the session
re-enters 'choice' provided hearts are still positive at the end of the
frame (otherwise the game-over check overwrites the choice state). -/
theorem choice_trigger (E : Env) (inp : FrameInput) (g : Game)
    (h : g.gameState = GState.playing)
    (hca : g.choiceActive = false)
    (h1 : g.nextChoiceAt ≤ (update E inp g).monstersDefeated)
    (h2 : (update E inp g).monstersDefeated < g.monstersToSpawn)
    (h3 : 0 < (update E inp g).hearts) :
    (update E inp g).gameState = GState.choice ∧
    (update E inp g).nextChoiceAt = min (g.nextChoiceAt + 3) g.monstersToSpawn ∧
    ∀ (E2 : Env) (i : Nat) (coin : Bool) (g2 : Game),
      (startLevel E2 i coin g2).nextChoiceAt = min 3 (levelAt i).monsterCount := by
  rw [update_playing E inp g h] at h1 h2 h3 ⊢
  have h1' : g.nextChoiceAt ≤ newDefeated E inp g := h1
  have h2' : newDefeated E inp g < g.monstersToSpawn := h2
  have h3' : 0 < newHearts E inp g := h3
  have htrig : choiceTrigB E inp g = true := by
    unfold choiceTrigB
    rw [hca]
    simp [h1', h2']
  refine ⟨?_, ?_, fun _ _ _ _ => rfl⟩
  · show newState E inp g = GState.choice
    unfold newState
    rw [if_neg (fun hc => absurd hc.1 (by omega))]
    unfold stateAfterGameOver
    rw [if_neg (by omega)]
    unfold stateAfterChoice
    rw [if_pos htrig]
  · show (if choiceTrigB E inp g then min (g.nextChoiceAt + 3) g.monstersToSpawn
        else g.nextChoiceAt) = min (g.nextChoiceAt + 3) g.monstersToSpawn
    rw [if_pos htrig]

/-- Claim C5 (witness): on the reachable state gB7 (level 0, quota 5,
threshold 3, two defeats so far) the next frame's third defeat triggers
the choice overlay and advances the threshold to min(6, 5) = 5. -/
theorem choice_trigger_witness :
    (update E0 (iG 0.2) gB7).gameState = GState.choice ∧
    (update E0 (iG 0.2) gB7).nextChoiceAt = min (gB7.nextChoiceAt + 3) gB7.monstersToSpawn := by
  have h := choice_trigger E0 (iG 0.2) gB7 (by with_unfolding_all decide)
    (by with_unfolding_all decide) (by with_unfolding_all decide)
    (by with_unfolding_all decide) (by with_unfolding_all decide)
  exact ⟨h.1, h.2.1⟩

/-! ### Invariant preservation lemmas -/

/-- A session that ends a playing frame still playing, or with a choice
pending, survived the game-over check: its hearts are positive. -/
lemma newState_active (E : Env) (inp : FrameInput) (g : Game)
    (h : newState E inp g = GState.playing ∨ newState E inp g = GState.choice) :
    ¬ newHearts E inp g ≤ 0 := by
  intro hle
  unfold newState at h
  by_cases hc : levelClear E inp g
  · rw [if_pos hc] at h
    rcases h with h | h <;> exact absurd h (by decide)
  · rw [if_neg hc] at h
    unfold stateAfterGameOver at h
    rw [if_pos hle] at h
    rcases h with h | h <;> exact absurd h (by decide)

lemma heartsInv_startLevel (E : Env) (i : Nat) (coin : Bool) (g : Game) :
    HeartsInv (startLevel E i coin g) := by
  refine ⟨le_refl 3, ?_, fun _ => ?_⟩
  · show (3 : ℤ) - ((0 : Nat) : ℤ) ≤ 3
    norm_num
  · show (1 : ℤ) ≤ 3
    norm_num

lemma heartsInv_update (E : Env) (inp : FrameInput) (g : Game)
    (hg : HeartsInv g) : HeartsInv (update E inp g) := by
  obtain ⟨ih1, ih2, ih3⟩ := hg
  by_cases hp : g.gameState = GState.playing
  · rw [update_playing E inp g hp]
    have hlh : (postColl E inp g).2.2.1 ≤ (postColl E inp g).2.1 := by
      unfold postColl
      exact resolve_hl_le _ _
    have hnd : newDefeated E inp g =
        g.monstersDefeated + (postMove E inp g).2 + (postColl E inp g).2.1 := rfl
    have hnh : newHearts E inp g = g.hearts - ((postColl E inp g).2.2.1 : ℤ) := rfl
    refine ⟨?_, ?_, ?_⟩
    · show newHearts E inp g ≤ 3
      omega
    · show 3 - (newDefeated E inp g : ℤ) ≤ newHearts E inp g
      push_cast [hnd]
      omega
    · intro hst
      have := newState_active E inp g hst
      show 1 ≤ newHearts E inp g
      omega
  · rw [update_not_playing E inp g hp]
    exact ⟨ih1, ih2, ih3⟩

lemma heartsInv_select (left : Bool) (g : Game) (hg : HeartsInv g) :
    HeartsInv (selectChoice left g) := by
  obtain ⟨ih1, ih2, ih3⟩ := hg
  unfold selectChoice
  by_cases hc : g.gameState = GState.choice
  · rw [if_pos hc]
    exact ⟨ih1, ih2, fun _ => ih3 (Or.inr hc)⟩
  · rw [if_neg hc]
    exact ⟨ih1, ih2, ih3⟩

lemma countInv_startLevel (E : Env) (i : Nat) (coin : Bool) (g : Game) :
    CountInv (startLevel E i coin g) :=
  ⟨rfl, Nat.zero_le _, Nat.zero_le _⟩

lemma countInv_update (E : Env) (inp : FrameInput) (g : Game)
    (hg : CountInv g) : CountInv (update E inp g) := by
  obtain ⟨ih1, ih2, ih3⟩ := hg
  by_cases hp : g.gameState = GState.playing
  · rw [update_playing E inp g hp]
    have hmv : (postMove E inp g).1.length + (postMove E inp g).2 =
        (spawnPhase E inp g).1.length := by
      unfold postMove
      exact moveCull_len _ _ _
    have hrc : (postColl E inp g).1.length + (postColl E inp g).2.1 =
        (postMove E inp g).1.length := by
      unfold postColl survivors
      exact resolve_len _ _
    have hnd : newDefeated E inp g =
        g.monstersDefeated + (postMove E inp g).2 + (postColl E inp g).2.1 := rfl
    by_cases hs : (g.monstersSpawned < g.monstersToSpawn ∧
        g.spawnInterval ≤ g.spawnTimer + inp.delta * 1000)
    · have h1 : (spawnPhase E inp g).1.length = g.monsters.length + 1 := by
        unfold spawnPhase
        rw [if_pos hs]
        simp
      have h2 : (spawnPhase E inp g).2.1 = g.monstersSpawned + 1 := by
        unfold spawnPhase
        rw [if_pos hs]
      refine ⟨?_, ?_, ?_⟩
      · show newDefeated E inp g + (postColl E inp g).1.length = (spawnPhase E inp g).2.1
        omega
      · show (spawnPhase E inp g).2.1 ≤ g.monstersToSpawn
        omega
      · show newDefeated E inp g ≤ g.monstersToSpawn
        omega
    · have h1 : (spawnPhase E inp g).1.length = g.monsters.length := by
        unfold spawnPhase
        rw [if_neg hs]
      have h2 : (spawnPhase E inp g).2.1 = g.monstersSpawned := by
        unfold spawnPhase
        rw [if_neg hs]
      refine ⟨?_, ?_, ?_⟩
      · show newDefeated E inp g + (postColl E inp g).1.length = (spawnPhase E inp g).2.1
        omega
      · show (spawnPhase E inp g).2.1 ≤ g.monstersToSpawn
        omega
      · show newDefeated E inp g ≤ g.monstersToSpawn
        omega
  · rw [update_not_playing E inp g hp]
    exact ⟨ih1, ih2, ih3⟩

lemma countInv_select (left : Bool) (g : Game) (hg : CountInv g) :
    CountInv (selectChoice left g) := by
  unfold selectChoice
  by_cases hc : g.gameState = GState.choice
  · rw [if_pos hc]
    exact hg
  · rw [if_neg hc]
    exact hg

/-- Claim C1 (counterexample): the claim that hearts stay in [0, 3] on
every reachable state is false — the reachable state gA8 has hearts
equal to -1: its final frame resolved two mismatched collisions at once
while only one heart remained, and the source never clamps the counter. -/
theorem hearts_below_zero_cex :
    Reachable E0 gA8 ∧ gA8.hearts = -1 ∧ gA8.hearts < 0 :=
  ⟨reachA8, by with_unfolding_all decide, by with_unfolding_all decide⟩

/-- Claim C1 (amended): on every reachable session state, hearts never
exceed 3 and never drop by more than one per counted defeat (so hearts
is at least 3 - monstersDefeated), and hearts stay at least 1 while the
session is playing or offering a choice; but a frame that ends the level
or the game can drop hearts below 0 when several mismatched collisions
resolve simultaneously, so hearts in [0, 3] is not an invariant. -/
theorem hearts_invariant (E : Env) (g : Game) (h : Reachable E g) :
    g.hearts ≤ 3 ∧ 3 - (g.monstersDefeated : ℤ) ≤ g.hearts ∧
    ((g.gameState = GState.playing ∨ g.gameState = GState.choice) → 1 ≤ g.hearts) := by
  suffices hinv : HeartsInv g from hinv
  induction h with
  | start coin => exact heartsInv_startLevel ..
  | frame inp hv hr ih => exact heartsInv_update _ _ _ ih
  | select left hr ih => exact heartsInv_select _ _ ih
  | advance coin hr hst ih =>
    unfold advanceLevel
    split <;> exact heartsInv_startLevel ..
  | restart coin hr hst ih => exact heartsInv_startLevel ..

/-- Claim C1 (witness): the amended bounds instantiated on the reachable
state gA7, a mid-level playing state with one heart left. -/
theorem hearts_invariant_witness :
    gA7.hearts ≤ 3 ∧ 3 - (gA7.monstersDefeated : ℤ) ≤ gA7.hearts ∧ 1 ≤ gA7.hearts := by
  have h := hearts_invariant E0 gA7 reachA7
  exact ⟨h.1, h.2.1, h.2.2 (Or.inl (by with_unfolding_all decide))⟩

/-- Claim C8: on every reachable session state the defeat counter plus
the live monster count equals the spawn counter, the spawn counter never
exceeds the quota, and hence monstersDefeated never exceeds
monstersToSpawn. -/
theorem defeat_invariant (E : Env) (g : Game) (h : Reachable E g) :
    g.monstersDefeated + g.monsters.length = g.monstersSpawned ∧
    g.monstersSpawned ≤ g.monstersToSpawn ∧
    g.monstersDefeated ≤ g.monstersToSpawn := by
  suffices hinv : CountInv g from hinv
  induction h with
  | start coin => exact countInv_startLevel ..
  | frame inp hv hr ih => exact countInv_update _ _ _ ih
  | select left hr ih => exact countInv_select _ _ ih
  | advance coin hr hst ih =>
    unfold advanceLevel
    split <;> exact countInv_startLevel ..
  | restart coin hr hst ih => exact countInv_startLevel ..

/-- Claim C8 (witness): the bookkeeping instantiated on the reachable
state gA8: 4 defeats plus 1 live monster equal 5 spawned, within the
quota of 5. -/
theorem defeat_invariant_witness :
    gA8.monstersDefeated + gA8.monsters.length = gA8.monstersSpawned ∧
    gA8.monstersSpawned ≤ gA8.monstersToSpawn ∧
    gA8.monstersDefeated ≤ gA8.monstersToSpawn :=
  defeat_invariant E0 gA8 reachA8

end RunChoose
